import Mathlib

/-!
Verification development for the TDD-AUTOGEN repository: a shallow embedding
of the orchestration core (speaker selection, run state, artifact validators,
execution-status derivation and reviewer extraction) together with theorems
settling the specification's claims about it.
-/

/-! ## String utilities (Python `in`, `find`, slicing) -/

/-- Python's substring test `needle in hay`, over character lists. -/
def infB (needle : List Char) : List Char → Bool
  | [] => needle.isPrefixOf []
  | c :: t => needle.isPrefixOf (c :: t) || infB needle t

/-- Python's `needle in hay` on strings. -/
def containsSub (hay needle : String) : Bool :=
  infB needle.data hay.data

theorem infB_iff (needle hay : List Char) : infB needle hay = true ↔ needle <:+: hay := by
  induction hay with
  | nil => simp [infB, List.isPrefixOf_iff_prefix]
  | cons c t ih =>
    rw [infB, Bool.or_eq_true, List.isPrefixOf_iff_prefix, ih, List.infix_cons_iff]

/-- First index of `needle` in `hay` (Python `str.find` restricted to the
found case); `none` when absent. -/
def findSubFrom (hay needle : List Char) : Option Nat :=
  if needle.isPrefixOf hay then some 0
  else
    match hay with
    | [] => none
    | _ :: t => (findSubFrom t needle).map (· + 1)

/-- Python slice `s[a:b]` for `0 ≤ a ≤ b` (clamped at the ends). -/
def pySlice (s : String) (a b : Nat) : String :=
  String.mk ((s.data.drop a).take (b - a))

/-- Python `str.lower` (ASCII case folding, matching `Char.toLower` on the
ASCII outputs handled here). -/
def strLower (s : String) : String := String.mk (s.data.map Char.toLower)

/-- The apostrophe character (U+0027), built by code point to keep
string literals simple. -/
def squote : Char := Char.ofNat 39

/-- The double-quote character (U+0022). -/
def dquote : Char := Char.ofNat 34

/-- Python triple double-quote `"""` as a character list. -/
def tripleD : List Char := [dquote, dquote, dquote]

/-- Python triple single-quote as a character list. -/
def tripleS : List Char := [squote, squote, squote]

/-! ## app/config.py -/

namespace Config

/-- `Config.MAX_ITERATIONS` from app/config.py. -/
def MAX_ITERATIONS : Nat := 5

/-- `Config.MAX_TEST_REGENERATIONS` from app/config.py. -/
def MAX_TEST_REGENERATIONS : Nat := 3

/-- `Config.IMPLEMENTATION_MODULE` from app/config.py. -/
def IMPLEMENTATION_MODULE : String := "app_code"

/-- `Config.TEST_FILE` from app/config.py. -/
def TEST_FILE : String := "test_app.py"

end Config

/-! ## app/state.py -/

/-- A Python value stored in a `TDDState` field: the fields hold strings,
except `iteration` which holds an integer. -/
inductive PyVal
  | str (s : String)
  | int (n : Int)
  deriving DecidableEq, Repr

/-- `TDDState` from app/state.py: the mutable run record.  Field types follow
`TDDState.__init__` (strings everywhere, integer `iteration`). -/
structure TDDState where
  specification : String
  tests : String
  code : String
  feedback : String
  status : String
  iteration : Int
  test_phase : String
  previous_tests : String
  deriving DecidableEq, Repr

/-- `TDDState.__init__`: initial field values for a given specification. -/
def initState (spec : String) : TDDState :=
  { specification := spec, tests := "", code := "", feedback := "", status := "",
    iteration := 0, test_phase := "red", previous_tests := "" }

/-- The `valid_keys` set from `StateManager.update`. -/
def validKeys : List String :=
  ["specification", "tests", "code", "feedback", "status", "iteration",
   "test_phase", "previous_tests"]

/-- Python `setattr(state, k, v)` on the typed `TDDState` record.  A key
outside the eight fields leaves the record unchanged (such keys are filtered
out before `setattr` is reached in the source); a value whose Python type
differs from the field's declared type is not representable in the typed
record and is likewise modelled as the identity (the claims under study
only exercise well-typed updates). -/
def setattr (st : TDDState) (k : String) (v : PyVal) : TDDState :=
  if k = "specification" then
    match v with | .str s => { st with specification := s } | _ => st
  else if k = "tests" then
    match v with | .str s => { st with tests := s } | _ => st
  else if k = "code" then
    match v with | .str s => { st with code := s } | _ => st
  else if k = "feedback" then
    match v with | .str s => { st with feedback := s } | _ => st
  else if k = "status" then
    match v with | .str s => { st with status := s } | _ => st
  else if k = "iteration" then
    match v with | .int n => { st with iteration := n } | _ => st
  else if k = "test_phase" then
    match v with | .str s => { st with test_phase := s } | _ => st
  else if k = "previous_tests" then
    match v with | .str s => { st with previous_tests := s } | _ => st
  else st

/-- Python `getattr(state, k, default)` restricted to the eight data fields:
`none` models "attribute absent, default returned". -/
def getField (st : TDDState) (k : String) : Option PyVal :=
  if k = "specification" then some (.str st.specification)
  else if k = "tests" then some (.str st.tests)
  else if k = "code" then some (.str st.code)
  else if k = "feedback" then some (.str st.feedback)
  else if k = "status" then some (.str st.status)
  else if k = "iteration" then some (.int st.iteration)
  else if k = "test_phase" then some (.str st.test_phase)
  else if k = "previous_tests" then some (.str st.previous_tests)
  else none

/-- Apply a list of keyed assignments in order (the loop in
`TDDState.update`). -/
def applyAll (st : TDDState) (l : List (String × PyVal)) : TDDState :=
  l.foldl (fun s kv => setattr s kv.1 kv.2) st

/-- `StateManager.update(**kwargs)` from app/state.py: filter the mapping to
`valid_keys` (unknown keys silently dropped), return unchanged on an empty
validated mapping, otherwise apply all validated entries. -/
def managerUpdate (st : TDDState) (kwargs : List (String × PyVal)) : TDDState :=
  let validated := kwargs.filter (fun kv => validKeys.contains kv.1)
  if validated = [] then st
  else applyAll st validated

/-- `StateManager.get(key, default)` from app/state.py. -/
def managerGet (st : TDDState) (k : String) (default : PyVal) : PyVal :=
  (getField st k).getD default

/-- Whether a `PyVal` is a string. -/
def isStr : PyVal → Bool
  | .str _ => true
  | .int _ => false

/-- A kwargs entry is well-typed for the record when a known key carries a
value of its field's Python type (unknown keys are unconstrained — they are
dropped before assignment). -/
def typeOk (k : String) (v : PyVal) : Bool :=
  if validKeys.contains k then
    (if k = "iteration" then !(isStr v) else isStr v)
  else true

/-! ## app/agents/tester.py -/

/-- The error message returned by `validate_tests` when the artifact never
imports the implementation module (`f"Testes não importam de '{module_name}'"`,
with the apostrophes built by code point). -/
def msgNoImport : String :=
  "Testes não importam de " ++ String.mk [squote] ++ Config.IMPLEMENTATION_MODULE
    ++ String.mk [squote]

/-- Python `repr` of a string for the common case of no embedded quotes or
escapes (how the strings collected by `validate_tests` are rendered inside
the `str(list)` of its error message). -/
def pyRepr (s : String) : String :=
  String.mk [squote] ++ s ++ String.mk [squote]

/-- Python `str` of a list of strings (again the no-escaping common case). -/
def pyShow (l : List String) : String :=
  "[" ++ String.intercalate ", " (l.map pyRepr) ++ "]"

/-- The implementation-leak scan inside `validate_tests`: for every line of
the artifact, keep its stripped form when it starts a non-test `def` and no
`@pytest.fixture` occurs in the 100 characters before the line's first
occurrence in the artifact. -/
def nonTestFuncs (tests : String) : List String :=
  (tests.splitOn "\n").filterMap (fun line =>
    let stripped := line.trim
    let i := (findSubFrom tests.data line.data).getD 0
    if "def ".isPrefixOf stripped
        && !(containsSub stripped "def test_")
        && !(containsSub (pySlice tests (i - 100) i) "@pytest.fixture")
    then some stripped else none)

/-- `validate_tests` from app/agents/tester.py: `none` means valid, `some msg`
the error message returned. -/
def validate_tests (tests : String) : Option String :=
  if tests = "" then some "Testes vazios gerados"
  else if !(containsSub tests "def test_") then
    some "Nenhuma função de teste encontrada"
  else if !(containsSub tests ("from " ++ Config.IMPLEMENTATION_MODULE ++ " import")
            || containsSub tests ("import " ++ Config.IMPLEMENTATION_MODULE)) then
    some msgNoImport
  else
    match nonTestFuncs tests with
    | [] => none
    | fs => some ("Testes contêm implementação: " ++ pyShow fs)

/-- The validation / rollback / persist tail of `generate_tests`
(app/agents/tester.py): given the Tester's response text and the current
state, either return the updated state together with the content written to
the test file, or `Except.error` for the raised `ValueError` (in which case
no file write and no state update has happened). -/
def generate_tests_step (response : String) (st : TDDState) :
    Except String (TDDState × String) :=
  let previous_tests := st.tests
  match validate_tests response with
  | some error =>
    if previous_tests ≠ "" then
      Except.ok (managerUpdate st
        [("tests", PyVal.str previous_tests), ("test_phase", PyVal.str "red"),
         ("previous_tests", PyVal.str previous_tests)], previous_tests)
    else
      Except.error ("Falha ao gerar testes válidos: " ++ error)
  | none =>
    Except.ok (managerUpdate st
      [("tests", PyVal.str response), ("test_phase", PyVal.str "red"),
       ("previous_tests", PyVal.str previous_tests)], response)

/-! ## app/agents/developer.py -/

/-- Character class `\w` of the Python regexes (ASCII range). -/
def isWordChar (c : Char) : Bool := c.isAlphanum || c = '_'

/-- Attempt to match the regex `def\s+(\w+)\s*\(` at the head of the input;
returns the captured function name and the total match length.  The character
classes are disjoint, so greedy maximal munch is exact. -/
def matchDefAt (cs : List Char) : Option (String × Nat) :=
  match cs with
  | 'd' :: 'e' :: 'f' :: rest =>
    let ws := rest.takeWhile Char.isWhitespace
    if ws.isEmpty then none
    else
      let r1 := rest.drop ws.length
      let wd := r1.takeWhile isWordChar
      if wd.isEmpty then none
      else
        let r2 := r1.drop wd.length
        let ws2 := r2.takeWhile Char.isWhitespace
        match r2.drop ws2.length with
        | '(' :: _ => some (String.mk wd, 3 + ws.length + wd.length + ws2.length + 1)
        | _ => none
  | _ => none

/-- `re.finditer` for the `def\s+(\w+)\s*\(` pattern: non-overlapping matches
left to right, with their start positions.  Fuel is the input length (every
step consumes at least one character). -/
def findDefsAux : Nat → List Char → Nat → List (String × Nat)
  | 0, _, _ => []
  | _ + 1, [], _ => []
  | fuel + 1, c :: rest, i =>
    match matchDefAt (c :: rest) with
    | some (nm, len) => (nm, i) :: findDefsAux fuel ((c :: rest).drop len) (i + len)
    | none => findDefsAux fuel rest (i + 1)

/-- All `def` signatures of a code artifact, with start positions. -/
def findDefs (cs : List Char) : List (String × Nat) :=
  findDefsAux cs.length cs 0

/-- The docstring scan inside `validate_implementation`: the first defined
function whose 200-character lookahead window contains neither triple quote. -/
def firstMissingDoc (code : String) : Option String :=
  (findDefs code.data).findSome? (fun p =>
    let window := (code.data.drop p.2).take 200
    if infB tripleD window || infB tripleS window then none else some p.1)

/-- `validate_implementation` from app/agents/developer.py. -/
def validate_implementation (code : String) : Option String :=
  if code = "" then some "Código vazio gerado"
  else if containsSub code "def test_" || containsSub code "import pytest" then
    some "Código contém testes (deve estar em arquivo separado)"
  else if !(containsSub code "def ") then some "Nenhuma função implementada"
  else
    match firstMissingDoc code with
    | some nm => some ("Função " ++ nm ++ " não tem docstring")
    | none => none

/-- The validation / rollback / persist tail of `generate_code`
(app/agents/developer.py), analogous to `generate_tests_step`. -/
def generate_code_step (response : String) (st : TDDState) :
    Except String (TDDState × String) :=
  let prev_code := st.code
  match validate_implementation response with
  | some error =>
    if prev_code ≠ "" then
      Except.ok (managerUpdate st
        [("code", PyVal.str prev_code), ("test_phase", PyVal.str "green")], prev_code)
    else
      Except.error ("Falha ao gerar código válido: " ++ error)
  | none =>
    Except.ok (managerUpdate st
      [("code", PyVal.str response), ("test_phase", PyVal.str "green")], response)

/-- The generation context assembled by `generate_code`
(app/agents/developer.py, the f-string feeding the Developer agent). -/
def developer_context (st : TDDState) : String :=
  "\n    TESTES ATUAIS:\n    " ++ st.tests
    ++ "\n    \n    FEEDBACK (se houver):\n    " ++ st.feedback
    ++ "\n    \n    CÓDIGO ANTERIOR (se houver):\n    " ++ st.code
    ++ "\n    "

/-! ## app/agents/runner.py -/

/-- The status-derivation block of `run_tests` (app/agents/runner.py,
lines 48–61): the status written to the state for a given combined
stdout/stderr output. -/
def derive_status (output : String) : String :=
  let has_passed := containsSub (strLower output) "passed"
  let has_failures := containsSub (strLower output) "failed"
    || containsSub (strLower output) "error"
  if has_passed && !has_failures then "passed" else "failed"

/-! ## app/agents/reviewer.py -/

/-- Case-insensitive match of a lowercase pattern against the head of the
input; returns the remaining input on success. -/
def matchCI : List Char → List Char → Option (List Char)
  | [], cs => some cs
  | _ :: _, [] => none
  | p :: ps, c :: cs => if c.toLower = p then matchCI ps cs else none

/-- Attempt to match the regex `(PASSED|FAILED|ERROR)\s+(test_[\w\d_]+)`
(with `re.IGNORECASE`) at the head of the input.  Returns the lowercased
status keyword, the captured test identifier (original case) and the total
match length.  The classes `\s`, `\w` and the literal letters are disjoint
where needed, so greedy maximal munch is exact. -/
def matchResultAt (cs : List Char) : Option (String × String × Nat) :=
  let keyword :=
    match matchCI "passed".data cs with
    | some rest => some ("passed", rest)
    | none =>
      match matchCI "failed".data cs with
      | some rest => some ("failed", rest)
      | none =>
        match matchCI "error".data cs with
        | some rest => some ("error", rest)
        | none => none
  match keyword with
  | none => none
  | some (kw, rest) =>
    let ws := rest.takeWhile Char.isWhitespace
    if ws.isEmpty then none
    else
      let r1 := rest.drop ws.length
      match matchCI "test_".data r1 with
      | none => none
      | some r2 =>
        let body := r2.takeWhile isWordChar
        if body.isEmpty then none
        else
          some (kw, String.mk (r1.take 5 ++ body),
                kw.length + ws.length + 5 + body.length)

/-- `re.finditer` scan for the test-result pattern: leftmost, non-overlapping
matches.  Fuel is the input length. -/
def scanResults : Nat → List Char → List (String × String)
  | 0, _ => []
  | _ + 1, [] => []
  | fuel + 1, c :: cs =>
    match matchResultAt (c :: cs) with
    | some (st, nm, len) => (st, nm) :: scanResults fuel ((c :: cs).drop len)
    | none => scanResults fuel cs

/-- The result record built by `extract_test_results`. -/
structure ExtractResults where
  passed : List String
  failed : List String
  errors : List String
  deriving DecidableEq, Repr

/-- `extract_test_results` from app/agents/reviewer.py: bucket every match by
its lowercased status keyword (`passed` / `failed` / anything else → errors). -/
def extract_test_results (output : String) : ExtractResults :=
  (scanResults output.data.length output.data).foldl
    (fun r m =>
      if m.1 = "passed" then { r with passed := r.passed ++ [m.2] }
      else if m.1 = "failed" then { r with failed := r.failed ++ [m.2] }
      else { r with errors := r.errors ++ [m.2] })
    ⟨[], [], []⟩

/-- The control-flow skeleton of `analyze_failures` (app/agents/reviewer.py):
`Except.error` is the early descriptive return for absent output (no state
update), `Except.ok s` the status written to the state on the normal path
(the rendered report text itself is not modelled — no claim mentions it). -/
def analyze_failures_outcome (output : String) : Except String String :=
  if output = "" then Except.error "Erro: Nenhuma saída de teste fornecida"
  else
    let results := extract_test_results output
    Except.ok (if results.failed.length > 0 ∨ results.errors.length > 0
               then "failed" else "passed")

/-! ## app/main.py — speaker selection and the group-chat loop -/

/-- The five agents of `TDDOrchestrator`. -/
inductive Speaker
  | Planner
  | Tester
  | Executor
  | Developer
  | Reviewer
  deriving DecidableEq, Repr

/-- The `name` attribute of each agent. -/
def Speaker.toName : Speaker → String
  | .Planner => "Planner"
  | .Tester => "Tester"
  | .Executor => "Executor"
  | .Developer => "Developer"
  | .Reviewer => "Reviewer"

/-- Outcome of `custom_speaker_selection`: a chosen agent, `None`
(terminate the chat), or the string `"auto"` (let the manager decide). -/
inductive Choice
  | next (s : Speaker)
  | terminate
  | auto
  deriving DecidableEq, Repr

/-- `custom_speaker_selection` from `TDDOrchestrator.__init__` (app/main.py):
given the chat's message contents and the last speaker's name, pick the next
speaker.  The branch chain is translated in source order. -/
def custom_speaker_selection (messages : List String) (lastSpeaker : Option String) :
    Choice :=
  match messages.getLast? with
  | none => Choice.next Speaker.Planner
  | some content =>
    if lastSpeaker = some "Planner" then Choice.next Speaker.Tester
    else if lastSpeaker = some "Tester" && containsSub content "```python" then
      Choice.next Speaker.Executor
    else if lastSpeaker = some "Executor" && containsSub content "test_app.py"
        && containsSub content "exitcode: 0" then
      Choice.next Speaker.Developer
    else if lastSpeaker = some "Developer" && containsSub content "```python" then
      Choice.next Speaker.Executor
    else if lastSpeaker = some "Executor" && containsSub content "app_code.py"
        && containsSub content "exitcode: 0" then
      Choice.next Speaker.Executor
    else if containsSub content "exitcode:"
        && (containsSub content "FAILED" || containsSub content "PASSED"
            || containsSub content "ERROR") then
      Choice.next Speaker.Reviewer
    else if lastSpeaker = some "Reviewer" then
      if containsSub content "TERMINATE" then Choice.terminate
      else Choice.next Speaker.Developer
    else Choice.auto

/-- `max_round` passed to `autogen.GroupChat` in `TDDOrchestrator.__init__`. -/
def maxRound : Nat := 25

/-- One scheduling round of the group chat: run the selection on the current
transcript; `Choice.auto` is resolved by the manager `policy`, and the chosen
agent's reply is supplied by the oracle `gen` (the language-model backend is
an opaque collaborator).  `none` means the chat ends. -/
def chatStep (policy : List (String × String) → Speaker)
    (gen : Nat → Speaker → String)
    (msgs : List (String × String)) : Option (String × String) :=
  match custom_speaker_selection (msgs.map Prod.snd) ((msgs.getLast?).map Prod.fst) with
  | Choice.terminate => none
  | Choice.next s => some (s.toName, gen msgs.length s)
  | Choice.auto => some ((policy msgs).toName, gen msgs.length (policy msgs))

/-- Iterate `chatStep` for at most the given number of rounds. -/
def runChatAux (policy : List (String × String) → Speaker)
    (gen : Nat → Speaker → String) :
    Nat → List (String × String) → List (String × String)
  | 0, msgs => msgs
  | n + 1, msgs =>
    match chatStep policy gen msgs with
    | none => msgs
    | some m => runChatAux policy gen n (msgs ++ [m])

/-- The group-chat transcript of one run: the initiating Executor message
followed by at most `maxRound - 1` scheduled replies. -/
def runChat (policy : List (String × String) → Speaker)
    (gen : Nat → Speaker → String) (init : String) : List (String × String) :=
  runChatAux policy gen (maxRound - 1) [("Executor", init)]

/-- `messages[-10:]` — the last ten chat contents inspected by
`TDDOrchestrator.run` after the chat ends. -/
def lastTen (l : List String) : List String := l.drop (l.length - 10)

/-- The sentinel scan at the end of `TDDOrchestrator.run`: if any of the last
ten messages contains `TERMINATE`, the status becomes `passed`; otherwise it
is left unchanged. -/
def finalize_status (msgs : List String) (status : String) : String :=
  if (lastTen msgs).any (fun c => containsSub c "TERMINATE") then "passed" else status

/-- The non-exceptional path of `TDDOrchestrator.run` (app/main.py): create
the state from the specification, run the group chat, then apply the sentinel
scan to the state's status.  No other state field is ever written on this
path. -/
def orchestrator_run (policy : List (String × String) → Speaker)
    (gen : Nat → Speaker → String) (spec init : String) : TDDState :=
  let msgs := runChat policy gen init
  let st := initState spec
  if (lastTen (msgs.map Prod.snd)).any (fun c => containsSub c "TERMINATE") then
    managerUpdate st [("status", PyVal.str "passed")]
  else st

/-- Number of turns taken by the Reviewer in a transcript (each refactor
cycle WRITE_CODE → EXECUTE_TESTS → REVIEW contains exactly one such turn). -/
def reviewerTurns (msgs : List (String × String)) : Nat :=
  (msgs.filter (fun m => m.1 = "Reviewer")).length

/-! ## Helper lemmas -/

/-- When the last speaker is the Reviewer and the last message does not match
the pytest-result shape of the earlier content-only branch, the selection
reduces to the sentinel test. -/
theorem selection_reviewer (messages : List String) (content : String)
    (hlast : messages.getLast? = some content)
    (h6 : (containsSub content "exitcode:"
        && (containsSub content "FAILED" || containsSub content "PASSED"
            || containsSub content "ERROR")) = false) :
    custom_speaker_selection messages (some "Reviewer") =
      (if containsSub content "TERMINATE" then Choice.terminate
       else Choice.next Speaker.Developer) := by
  unfold custom_speaker_selection
  rw [hlast]
  simp [h6]

/-- If the final chat message contains the sentinel, the closing scan of
`TDDOrchestrator.run` records the status as passed. -/
theorem finalize_concat (msgs : List String) (content s : String)
    (h : containsSub content "TERMINATE" = true) :
    finalize_status (msgs ++ [content]) s = "passed" := by
  unfold finalize_status
  rw [if_pos]
  rw [List.any_eq_true]
  refine ⟨content, ?_, h⟩
  unfold lastTen
  have hk : (msgs ++ [content]).length - 10 ≤ msgs.length := by
    simp only [List.length_append, List.length_singleton]
    omega
  rw [List.drop_append_of_le_length hk]
  exact List.mem_append_right _ (List.mem_singleton.mpr rfl)

/-! ## Claim C1 -/

/-- Claim C1, counterexample: with the last speaker being the Reviewer and a
Reviewer message that contains the sentinel but also matches the
pytest-result shape, the scheduler selects the Reviewer again instead of
terminating — refuting "terminates if and only if the message contains
TERMINATE". -/
theorem C1_counterexample :
    containsSub "exitcode: 1 FAILED test_x TERMINATE" "TERMINATE" = true ∧
    custom_speaker_selection ["exitcode: 1 FAILED test_x TERMINATE"] (some "Reviewer")
      = Choice.next Speaker.Reviewer ∧
    Choice.next Speaker.Reviewer ≠ Choice.terminate := by decide

/-- Claim C1, amended: when the last speaker is the Reviewer and the message
does not match the pytest-result shape (containing "exitcode:" together with
FAILED, PASSED or ERROR), the next-speaker decision terminates the chat if
and only if the message contains the sentinel TERMINATE; and whenever the
final message contains the sentinel, the closing scan of the run records the
status as passed regardless of the remaining round budget. -/
theorem C1_amended (content : String) (msgs : List String) (s : String)
    (h : ¬ (containsSub content "exitcode:" = true ∧
      (containsSub content "FAILED" = true ∨ containsSub content "PASSED" = true
        ∨ containsSub content "ERROR" = true))) :
    (custom_speaker_selection (msgs ++ [content]) (some "Reviewer") = Choice.terminate
      ↔ containsSub content "TERMINATE" = true) ∧
    (containsSub content "TERMINATE" = true →
      finalize_status (msgs ++ [content]) s = "passed") := by
  have h6 : (containsSub content "exitcode:"
      && (containsSub content "FAILED" || containsSub content "PASSED"
          || containsSub content "ERROR")) = false := by
    rw [Bool.eq_false_iff]
    intro hT
    apply h
    simpa [Bool.and_eq_true, Bool.or_eq_true, or_assoc] using hT
  constructor
  · rw [selection_reviewer (msgs ++ [content]) content (List.getLast?_concat msgs) h6]
    rcases Bool.eq_false_or_eq_true (containsSub content "TERMINATE") with ht | ht <;>
      simp [ht]
  · intro ht
    exact finalize_concat msgs content s ht

/-- Claim C1, witness: the amended theorem applied to the Reviewer verdict
"LGTM TERMINATE". -/
theorem C1_witness :
    (¬ (containsSub "LGTM TERMINATE" "exitcode:" = true ∧
      (containsSub "LGTM TERMINATE" "FAILED" = true
        ∨ containsSub "LGTM TERMINATE" "PASSED" = true
        ∨ containsSub "LGTM TERMINATE" "ERROR" = true))) ∧
    ((custom_speaker_selection (["relatorio"] ++ ["LGTM TERMINATE"]) (some "Reviewer")
        = Choice.terminate ↔ containsSub "LGTM TERMINATE" "TERMINATE" = true) ∧
      (containsSub "LGTM TERMINATE" "TERMINATE" = true →
        finalize_status (["relatorio"] ++ ["LGTM TERMINATE"]) "" = "passed")) :=
  ⟨by decide, C1_amended "LGTM TERMINATE" ["relatorio"] "" (by decide)⟩

/-! ## Claim C3 -/

/-- Claim C3: `run_tests` derives status "passed" if and only if the output
contains a passing-indicator token and no failing- or error-indicator token
(all case-insensitive substring tests), derives "failed" otherwise, and in
particular an output containing a failing or error indicator is never
classified "passed". -/
theorem C3_status_derivation (output : String) :
    (derive_status output = "passed" ↔
      (containsSub (strLower output) "passed" = true ∧
        ¬ (containsSub (strLower output) "failed" = true
            ∨ containsSub (strLower output) "error" = true))) ∧
    ((containsSub (strLower output) "failed" = true
        ∨ containsSub (strLower output) "error" = true) →
      derive_status output = "failed") ∧
    (derive_status output = "passed" ∨ derive_status output = "failed") := by
  cases hp : containsSub (strLower output) "passed" <;>
    cases hf : containsSub (strLower output) "failed" <;>
      cases he : containsSub (strLower output) "error" <;>
        simp [derive_status, hp, hf, he]

/-- Claim C3, witness: the theorem applied to a purely-passing and a failing
pytest output. -/
theorem C3_witness :
    derive_status "== 2 PASSED ==" = "passed"
      ∧ derive_status "1 FAILED, 1 passed" = "failed" :=
  ⟨(C3_status_derivation "== 2 PASSED ==").1.mpr (by decide),
   (C3_status_derivation "1 FAILED, 1 passed").2.1 (by decide)⟩

/-- The implementation-leak message of `validate_tests` never equals the
no-test-function message (their first characters differ). -/
theorem append_ne_noTest (x : String) :
    "Testes contêm implementação: " ++ x ≠ "Nenhuma função de teste encontrada" := by
  intro h
  have h1 : ("Testes contêm implementação: " ++ x).data.head? = some 'T' := by
    rw [String.data_append]
    rfl
  rw [h] at h1
  exact absurd h1 (by decide)

/-! ## Claim C4 -/

/-- Claim C4: if a generation round of the Tester (resp. Developer) fails
validation while a valid artifact from the previous round exists (non-empty
`tests` resp. `code` field), the round succeeds without raising and the
artifact persisted by the round — both the file content written and the
state's field — is byte-for-byte the previous round's artifact. -/
theorem C4_rollback (rT rC eT eC : String) (st : TDDState)
    (hT : validate_tests rT = some eT) (hpt : st.tests ≠ "")
    (hC : validate_implementation rC = some eC) (hpc : st.code ≠ "") :
    (∃ st', generate_tests_step rT st = Except.ok (st', st.tests)
        ∧ st'.tests = st.tests) ∧
    (∃ st', generate_code_step rC st = Except.ok (st', st.code)
        ∧ st'.code = st.code) := by
  constructor
  · refine ⟨managerUpdate st
      [("tests", PyVal.str st.tests), ("test_phase", PyVal.str "red"),
       ("previous_tests", PyVal.str st.tests)], ?_, ?_⟩
    · simp only [generate_tests_step, hT]
      rw [if_pos hpt]
    · rfl
  · refine ⟨managerUpdate st
      [("code", PyVal.str st.code), ("test_phase", PyVal.str "green")], ?_, ?_⟩
    · simp only [generate_code_step, hC]
      rw [if_pos hpc]
    · rfl

/-- Claim C4, witness: an empty Tester and Developer response (validation
failure `EmptyOutput`) against a state holding prior artifacts "T0" / "C0". -/
theorem C4_witness :
    (∃ st', generate_tests_step "" (⟨"s", "T0", "C0", "f", "st", 1, "red", "pt"⟩ : TDDState)
        = Except.ok (st', "T0") ∧ st'.tests = "T0") ∧
    (∃ st', generate_code_step "" (⟨"s", "T0", "C0", "f", "st", 1, "red", "pt"⟩ : TDDState)
        = Except.ok (st', "C0") ∧ st'.code = "C0") :=
  C4_rollback "" "" "Testes vazios gerados" "Código vazio gerado"
    ⟨"s", "T0", "C0", "f", "st", 1, "red", "pt"⟩
    (by decide) (by decide) (by decide) (by decide)

/-! ## Claim C5 -/

/-- Claim C5: if the first generation round of the Tester (resp. Developer)
fails validation with no prior artifact (empty `tests` resp. `code` field),
the round raises a fatal `ValueError` — in the embedding, `Except.error`
carries no state/file pair, reflecting that the exception is raised before
any persistence, so the persisted artifact state is unchanged. -/
theorem C5_fatal (rT rC eT eC : String) (st : TDDState)
    (hT : validate_tests rT = some eT) (hpt : st.tests = "")
    (hC : validate_implementation rC = some eC) (hpc : st.code = "") :
    generate_tests_step rT st = Except.error ("Falha ao gerar testes válidos: " ++ eT) ∧
    generate_code_step rC st = Except.error ("Falha ao gerar código válido: " ++ eC) := by
  constructor
  · simp only [generate_tests_step, hT]
    rw [if_neg (by simp [hpt])]
  · simp only [generate_code_step, hC]
    rw [if_neg (by simp [hpc])]

/-- Claim C5, witness: empty responses against the fresh initial state. -/
theorem C5_witness :
    generate_tests_step "" (initState "spec")
        = Except.error ("Falha ao gerar testes válidos: " ++ "Testes vazios gerados") ∧
    generate_code_step "" (initState "spec")
        = Except.error ("Falha ao gerar código válido: " ++ "Código vazio gerado") :=
  C5_fatal "" "" "Testes vazios gerados" "Código vazio gerado" (initState "spec")
    (by decide) (by decide) (by decide) (by decide)

/-! ## Claim C8 -/

/-- Claim C8, counterexample: the empty text lacks a test-defining construct,
yet the Tester validator returns the `EmptyOutput` message, not the
`NoTestFunction` one — refuting "always returns the NoTestFunction kind". -/
theorem C8_counterexample :
    containsSub "" "def test_" = false ∧
    validate_tests "" = some "Testes vazios gerados" ∧
    some "Testes vazios gerados" ≠ some "Nenhuma função de teste encontrada" := by
  decide

/-- Claim C8, amended: for every non-empty text lacking a test-defining
construct (`def test_` substring), the Tester validator returns the
`NoTestFunction` failure message; for every text containing one, that
specific failure message never fires. -/
theorem C8_amended (t : String) :
    (t ≠ "" → containsSub t "def test_" = false →
      validate_tests t = some "Nenhuma função de teste encontrada") ∧
    (containsSub t "def test_" = true →
      validate_tests t ≠ some "Nenhuma função de teste encontrada") := by
  constructor
  · intro hne hdt
    unfold validate_tests
    rw [if_neg hne, hdt]
    simp
  · intro hdt
    have hne : t ≠ "" := by
      intro he
      rw [he] at hdt
      exact absurd hdt (by decide)
    unfold validate_tests
    rw [if_neg hne, hdt]
    simp only [Bool.not_true, Bool.false_eq_true, if_false]
    split_ifs with h3
    · intro hco
      exact absurd (Option.some.inj hco) (by decide)
    · cases hnf : nonTestFuncs t with
      | nil => simp
      | cons a l =>
        intro hco
        exact append_ne_noTest (pyShow (a :: l)) (Option.some.inj hco)

/-- Claim C8, witness: the amended theorem applied to a construct-free text
and to a well-formed test artifact. -/
theorem C8_witness :
    validate_tests "x = 1" = some "Nenhuma função de teste encontrada" ∧
    validate_tests "from app_code import f\ndef test_f():\n    assert f()\n"
      ≠ some "Nenhuma função de teste encontrada" :=
  ⟨(C8_amended "x = 1").1 (by decide) (by decide),
   (C8_amended "from app_code import f\ndef test_f():\n    assert f()\n").2 (by decide)⟩

/-! ## Claim C6 -/

/-- Claim C6: on non-absent output the Reviewer's analysis always succeeds
and writes status "passed" exactly when zero failed and zero errored test
identifiers were extracted (else "failed"); absent (empty) output yields the
distinguished descriptive error result instead. -/
theorem C6_analyze (output : String) (h : output ≠ "") :
    (analyze_failures_outcome output = Except.ok "passed" ↔
      (extract_test_results output).failed = []
        ∧ (extract_test_results output).errors = []) ∧
    (analyze_failures_outcome output = Except.ok "passed" ∨
      analyze_failures_outcome output = Except.ok "failed") ∧
    analyze_failures_outcome "" = Except.error "Erro: Nenhuma saída de teste fornecida" := by
  have hmain : analyze_failures_outcome output
      = Except.ok (if (extract_test_results output).failed.length > 0
          ∨ (extract_test_results output).errors.length > 0 then "failed" else "passed") := by
    unfold analyze_failures_outcome
    rw [if_neg h]
  refine ⟨?_, ?_, by rfl⟩
  · rw [hmain]
    by_cases hc : (extract_test_results output).failed.length > 0
        ∨ (extract_test_results output).errors.length > 0
    · rw [if_pos hc]
      constructor
      · intro he
        exact absurd (Except.ok.inj he) (by decide)
      · rintro ⟨h1, h2⟩
        rw [h1, h2] at hc
        simp at hc
    · rw [if_neg hc]
      rw [not_or, not_lt, not_lt] at hc
      obtain ⟨h1, h2⟩ := hc
      rw [Nat.le_zero, List.length_eq_zero] at h1 h2
      exact iff_of_true rfl ⟨h1, h2⟩
  · rw [hmain]
    by_cases hc : (extract_test_results output).failed.length > 0
        ∨ (extract_test_results output).errors.length > 0
    · rw [if_pos hc]
      right
      rfl
    · rw [if_neg hc]
      left
      rfl

/-- Claim C6, witness: the theorem applied to a passing and a failing pytest
output line. -/
theorem C6_witness :
    analyze_failures_outcome "PASSED test_add" = Except.ok "passed" ∧
    (analyze_failures_outcome "FAILED test_add" = Except.ok "passed" ∨
      analyze_failures_outcome "FAILED test_add" = Except.ok "failed") :=
  ⟨(C6_analyze "PASSED test_add" (by decide)).1.mpr (by decide),
   (C6_analyze "FAILED test_add" (by decide)).2.1⟩

/-! ## Claim C10 -/

/-- If the result pattern matches at no suffix of the input, the finditer
scan returns nothing. -/
theorem scan_nil_of_nomatch (fuel : Nat) (cs : List Char)
    (h : ∀ i, i ≤ cs.length → matchResultAt (cs.drop i) = none) :
    scanResults fuel cs = [] := by
  induction fuel generalizing cs with
  | zero => rfl
  | succ n ih =>
    cases cs with
    | nil => rfl
    | cons c t =>
      have h0 := h 0 (Nat.zero_le _)
      rw [List.drop_zero] at h0
      simp only [scanResults, h0]
      exact ih t (fun i hi => by
        have hgot := h (i + 1) (by simp only [List.length_cons]; omega)
        simpa [List.drop_succ_cons] using hgot)

/-- Claim C10: for every non-empty execution output in which no position
matches the status-keyword-plus-test-identifier pattern of
`extract_test_results`, the extraction yields zero passed, failed and
errored tests, and `analyze_failures` consequently writes status "passed". -/
theorem C10_no_match_passed (output : String) (h1 : output ≠ "")
    (h2 : ∀ i, i ≤ output.data.length → matchResultAt (output.data.drop i) = none) :
    extract_test_results output = ⟨[], [], []⟩ ∧
    analyze_failures_outcome output = Except.ok "passed" := by
  have hscan : scanResults output.data.length output.data = [] :=
    scan_nil_of_nomatch _ _ h2
  have hext : extract_test_results output = ⟨[], [], []⟩ := by
    unfold extract_test_results
    rw [hscan]
    rfl
  refine ⟨hext, ?_⟩
  simp only [analyze_failures_outcome, hext]
  rw [if_neg h1]
  rfl

/-- Claim C10, witness: the theorem applied to an output with no status
keywords at all. -/
theorem C10_witness :
    extract_test_results "hello world" = ⟨[], [], []⟩ ∧
    analyze_failures_outcome "hello world" = Except.ok "passed" :=
  C10_no_match_passed "hello world" (by decide) (by decide)

/-- The transcript grows by at most one message per round. -/
theorem runChatAux_length (policy : List (String × String) → Speaker)
    (gen : Nat → Speaker → String) (n : Nat) (msgs : List (String × String)) :
    (runChatAux policy gen n msgs).length ≤ msgs.length + n := by
  induction n generalizing msgs with
  | zero => simp [runChatAux]
  | succ k ih =>
    cases h : chatStep policy gen msgs with
    | none =>
      simp only [runChatAux, h]
      omega
    | some m =>
      simp only [runChatAux, h]
      have := ih (msgs ++ [m])
      simp only [List.length_append, List.length_singleton] at this
      omega

/-! ## Claim C2 -/

/-- A manager policy and generation oracle exercising the deterministic
refactor cycle Developer → Executor (artifact created) → Executor (pytest
failure) → Reviewer (no sentinel), keyed on the message index modulo four. -/
def cexGen : Nat → Speaker → String := fun n _ =>
  if n % 4 = 1 then "```python codigo"
  else if n % 4 = 2 then "app_code.py criado. exitcode: 0"
  else if n % 4 = 3 then "exitcode: 1 FAILED test_knight"
  else "O codigo precisa de melhorias"

/-- Manager policy used with `cexGen` (only consulted for the first hop
after the initiating message, which matches no selection branch). -/
def cexPolicy : List (String × String) → Speaker := fun _ => Speaker.Developer

/-- Claim C2, counterexample: a run in which the refactor cycle
WRITE_CODE → EXECUTE_TESTS → REVIEW completes six times — more than
`MAX_ITERATIONS = 5` — before the round budget forces termination.  The only
enforced bound is the group chat's `max_round = 25`; `Config.MAX_ITERATIONS`
is never consulted by the orchestrator. -/
theorem C2_counterexample :
    Config.MAX_ITERATIONS = 5 ∧
    (runChat cexPolicy cexGen "Implemente uma solucao TDD").map Prod.fst
      = ["Executor", "Developer", "Executor", "Executor", "Reviewer",
         "Developer", "Executor", "Executor", "Reviewer",
         "Developer", "Executor", "Executor", "Reviewer",
         "Developer", "Executor", "Executor", "Reviewer",
         "Developer", "Executor", "Executor", "Reviewer",
         "Developer", "Executor", "Executor", "Reviewer"] ∧
    reviewerTurns (runChat cexPolicy cexGen "Implemente uma solucao TDD") = 6 ∧
    ¬ (reviewerTurns (runChat cexPolicy cexGen "Implemente uma solucao TDD")
        ≤ Config.MAX_ITERATIONS) := by decide

/-- Claim C2, amended: the bound the code enforces is the group chat's
`max_round = 25` total messages (so the REVIEW phase can run up to the round
budget, not up to `MAX_ITERATIONS = 5`, which is defined but not consulted);
and when no sentinel appears among the last ten messages, forced termination
leaves the final status exactly as it already was — it is not forced to
passed. -/
theorem C2_amended (policy : List (String × String) → Speaker)
    (gen : Nat → Speaker → String) (init : String)
    (msgs : List String) (s : String)
    (h : ∀ c ∈ lastTen msgs, containsSub c "TERMINATE" = false) :
    (runChat policy gen init).length ≤ maxRound ∧
    maxRound = 25 ∧ Config.MAX_ITERATIONS = 5 ∧
    finalize_status msgs s = s := by
  refine ⟨?_, rfl, rfl, ?_⟩
  · have hb := runChatAux_length policy gen (maxRound - 1) [("Executor", init)]
    simpa [maxRound] using hb
  · have hf : (lastTen msgs).any (fun c => containsSub c "TERMINATE") = false := by
      rw [List.any_eq_false]
      intro c hc
      simp [h c hc]
    unfold finalize_status
    rw [hf]
    rfl

/-- Claim C2, witness: the amended theorem applied to the cycle oracle and a
sentinel-free final transcript. -/
theorem C2_witness :
    (runChat cexPolicy cexGen "go").length ≤ maxRound ∧
    maxRound = 25 ∧ Config.MAX_ITERATIONS = 5 ∧
    finalize_status ["sem sentinela"] "failed" = "failed" :=
  C2_amended cexPolicy cexGen "go" ["sem sentinela"] "failed" (by decide)

/-! ## Claim C7 -/

/-- Adversarial manager policy: always hand the floor to the Reviewer. -/
def advPolicy : List (String × String) → Speaker := fun _ => Speaker.Reviewer

/-- Oracle producing empty replies (no branch of the selection matches, so
every hop after a Developer turn goes through the manager policy). -/
def advGen : Nat → Speaker → String := fun _ _ => ""

/-- Claim C7, counterexample: (a) a sentinel-free Reviewer message matching
the pytest-result shape routes back to the Reviewer, not the Developer; and
(b) a run containing a sentinel-free Reviewer turn followed by a Developer
turn ends with `iteration` still 0 and `feedback` still empty — the
scheduler neither increments the iteration counter nor writes the feedback
field. -/
theorem C7_counterexample :
    (containsSub "exitcode: 1 FAILED test_add" "TERMINATE" = false ∧
      custom_speaker_selection ["exitcode: 1 FAILED test_add"] (some "Reviewer")
        = Choice.next Speaker.Reviewer) ∧
    ((runChat advPolicy advGen "go").take 3
        = [("Executor", "go"), ("Reviewer", ""), ("Developer", "")] ∧
      containsSub "" "TERMINATE" = false ∧
      (orchestrator_run advPolicy advGen "spec" "go").iteration = 0 ∧
      (orchestrator_run advPolicy advGen "spec" "go").feedback = "") := by decide

/-- Claim C7, amended: when the Reviewer's verdict lacks the sentinel and
does not match the pytest-result shape, the scheduler routes the next turn
to the Developer; the scheduler itself performs no state update — the run's
`iteration` stays 0 and `feedback` stays empty on the orchestrated path —
and whatever feedback the state holds reaches the Developer only because
`generate_code` embeds the state's feedback field verbatim in the context it
hands to the Developer agent. -/
theorem C7_amended (content : String) (msgs : List String)
    (hts : containsSub content "TERMINATE" = false)
    (hshape : ¬ (containsSub content "exitcode:" = true ∧
      (containsSub content "FAILED" = true ∨ containsSub content "PASSED" = true
        ∨ containsSub content "ERROR" = true)))
    (policy : List (String × String) → Speaker) (gen : Nat → Speaker → String)
    (spec init : String) (st : TDDState) :
    custom_speaker_selection (msgs ++ [content]) (some "Reviewer")
      = Choice.next Speaker.Developer ∧
    (orchestrator_run policy gen spec init).iteration = 0 ∧
    (orchestrator_run policy gen spec init).feedback = "" ∧
    containsSub (developer_context st) st.feedback = true := by
  have h6 : (containsSub content "exitcode:"
      && (containsSub content "FAILED" || containsSub content "PASSED"
          || containsSub content "ERROR")) = false := by
    rw [Bool.eq_false_iff]
    intro hT
    apply hshape
    simpa [Bool.and_eq_true, Bool.or_eq_true, or_assoc] using hT
  refine ⟨?_, ?_, ?_, ?_⟩
  · rw [selection_reviewer (msgs ++ [content]) content (List.getLast?_concat msgs) h6, hts]
    rfl
  · simp only [orchestrator_run]
    split_ifs <;> rfl
  · simp only [orchestrator_run]
    split_ifs <;> rfl
  · rw [containsSub, infB_iff]
    unfold developer_context
    refine ⟨("\n    TESTES ATUAIS:\n    " ++ st.tests
        ++ "\n    \n    FEEDBACK (se houver):\n    ").data,
      ("\n    \n    CÓDIGO ANTERIOR (se houver):\n    " ++ st.code ++ "\n    ").data, ?_⟩
    simp [String.data_append, List.append_assoc]

/-- Claim C7, witness: the amended theorem applied to a sentinel-free
verdict, the adversarial run, and a state carrying feedback "fb". -/
theorem C7_witness :
    custom_speaker_selection ([] ++ ["Melhore o codigo"]) (some "Reviewer")
      = Choice.next Speaker.Developer ∧
    (orchestrator_run advPolicy advGen "s" "go").iteration = 0 ∧
    (orchestrator_run advPolicy advGen "s" "go").feedback = "" ∧
    containsSub (developer_context ⟨"s", "T", "C", "fb", "", 0, "red", ""⟩) "fb" = true :=
  C7_amended "Melhore o codigo" [] (by decide) (by decide) advPolicy advGen "s" "go"
    ⟨"s", "T", "C", "fb", "", 0, "red", ""⟩

/-! ## Claim C9 -/

/-- Membership in `valid_keys` enumerated. -/
theorem validKeys_cases (k : String) (hk : validKeys.contains k = true) :
    k = "specification" ∨ k = "tests" ∨ k = "code" ∨ k = "feedback"
      ∨ k = "status" ∨ k = "iteration" ∨ k = "test_phase" ∨ k = "previous_tests" := by
  simpa [validKeys] using hk

/-- `setattr` with a key outside the field set is the identity. -/
theorem setattr_unknown (st : TDDState) (k' : String) (v : PyVal)
    (h : validKeys.contains k' = false) : setattr st k' v = st := by
  have hm : ¬ (k' = "specification") ∧ ¬ (k' = "tests") ∧ ¬ (k' = "code")
      ∧ ¬ (k' = "feedback") ∧ ¬ (k' = "status") ∧ ¬ (k' = "iteration")
      ∧ ¬ (k' = "test_phase") ∧ ¬ (k' = "previous_tests") := by
    simpa [validKeys] using h
  obtain ⟨h1, h2, h3, h4, h5, h6, h7, h8⟩ := hm
  unfold setattr
  rw [if_neg h1, if_neg h2, if_neg h3, if_neg h4, if_neg h5, if_neg h6,
    if_neg h7, if_neg h8]

/-- Frame law for a single assignment: setting one key leaves every other
known field's value untouched. -/
theorem getField_setattr_ne (st : TDDState) (k' k : String) (v : PyVal)
    (hne : k' ≠ k) (hk : validKeys.contains k = true) :
    getField (setattr st k' v) k = getField st k := by
  cases hc : validKeys.contains k' with
  | false => rw [setattr_unknown st k' v hc]
  | true =>
    rcases validKeys_cases k' hc with rfl | rfl | rfl | rfl | rfl | rfl | rfl | rfl <;>
      rcases validKeys_cases k hk with rfl | rfl | rfl | rfl | rfl | rfl | rfl | rfl <;>
        first
          | exact absurd rfl hne
          | (cases v <;> rfl)

/-- A well-typed assignment to a known key is immediately readable. -/
theorem getField_setattr_same (st : TDDState) (k : String) (v : PyVal)
    (hk : validKeys.contains k = true) (ht : typeOk k v = true) :
    getField (setattr st k v) k = some v := by
  rcases validKeys_cases k hk with rfl | rfl | rfl | rfl | rfl | rfl | rfl | rfl <;>
    cases v <;>
      first
        | rfl
        | exact Bool.noConfusion ht

/-- Frame law lifted over a whole assignment list. -/
theorem getField_applyAll_notmem (l : List (String × PyVal)) (st : TDDState) (k : String)
    (hk : validKeys.contains k = true) (hnm : k ∉ l.map Prod.fst) :
    getField (applyAll st l) k = getField st k := by
  induction l generalizing st with
  | nil => rfl
  | cons kv t ih =>
    simp only [List.map_cons, List.mem_cons, not_or] at hnm
    obtain ⟨h1, h2⟩ := hnm
    unfold applyAll
    rw [List.foldl_cons]
    have hrec := ih (setattr st kv.1 kv.2) h2
    unfold applyAll at hrec
    rw [hrec]
    exact getField_setattr_ne st kv.1 k kv.2 (Ne.symm h1) hk

/-- Update law lifted over a whole assignment list with distinct keys. -/
theorem getField_applyAll_mem (l : List (String × PyVal)) (st : TDDState)
    (k : String) (v : PyVal)
    (hk : validKeys.contains k = true)
    (hnd : (l.map Prod.fst).Nodup)
    (hwt : ∀ kv ∈ l, typeOk kv.1 kv.2 = true)
    (hmem : (k, v) ∈ l) :
    getField (applyAll st l) k = some v := by
  induction l generalizing st with
  | nil => cases hmem
  | cons kv t ih =>
    rw [List.map_cons] at hnd
    have hnd' := List.nodup_cons.mp hnd
    unfold applyAll
    rw [List.foldl_cons]
    rcases List.mem_cons.mp hmem with heq | hmem'
    · subst heq
      have hknot : k ∉ t.map Prod.fst := hnd'.1
      have hrest := getField_applyAll_notmem t (setattr st k v) k hk hknot
      unfold applyAll at hrest
      rw [hrest]
      exact getField_setattr_same st k v hk (hwt (k, v) (List.mem_cons_self _ _))
    · have hrec := ih (setattr st kv.1 kv.2) hnd'.2
        (fun x hx => hwt x (List.mem_cons_of_mem _ hx)) hmem'
      unfold applyAll at hrec
      exact hrec

/-- `StateManager.update` is the validated-filter followed by the assignment
loop (the empty-validated early return is the identity either way). -/
theorem managerUpdate_eq_applyAll (st : TDDState) (kwargs : List (String × PyVal)) :
    managerUpdate st kwargs
      = applyAll st (kwargs.filter (fun kv => validKeys.contains kv.1)) := by
  unfold managerUpdate
  show (if kwargs.filter (fun kv => validKeys.contains kv.1) = [] then st
        else applyAll st (kwargs.filter (fun kv => validKeys.contains kv.1)))
      = applyAll st (kwargs.filter (fun kv => validKeys.contains kv.1))
  split_ifs with h
  · rw [h]
    rfl
  · rfl

/-- Claim C9: `StateManager.update` applies exactly the entries whose keys
belong to the known field set — immediately after an update, `get` returns
the newly written value for every updated known field and the prior value
for every known field not mentioned — and unknown keys are silently dropped
without raising (prepending one to the mapping changes nothing).  Python's
kwargs guarantee distinct keys (`hnd`); `hwt` restricts to updates whose
values match the record's field types, the only ones representable in the
typed embedding. -/
theorem C9_update (st : TDDState) (kwargs : List (String × PyVal))
    (hnd : (kwargs.map Prod.fst).Nodup)
    (hwt : ∀ kv ∈ kwargs, typeOk kv.1 kv.2 = true) :
    (∀ k v, (k, v) ∈ kwargs → validKeys.contains k = true →
      getField (managerUpdate st kwargs) k = some v) ∧
    (∀ k, validKeys.contains k = true → k ∉ kwargs.map Prod.fst →
      getField (managerUpdate st kwargs) k = getField st k) ∧
    (∀ k v, validKeys.contains k = false →
      managerUpdate st ((k, v) :: kwargs) = managerUpdate st kwargs) := by
  refine ⟨?_, ?_, ?_⟩
  · intro k v hmem hk
    rw [managerUpdate_eq_applyAll]
    refine getField_applyAll_mem _ _ _ _ hk ?_ ?_ ?_
    · exact List.Nodup.sublist
        (List.Sublist.map Prod.fst (List.filter_sublist kwargs)) hnd
    · intro kv hkv
      exact hwt kv (List.mem_of_mem_filter hkv)
    · exact List.mem_filter.mpr ⟨hmem, hk⟩
  · intro k hk hnm
    rw [managerUpdate_eq_applyAll]
    refine getField_applyAll_notmem _ _ _ hk ?_
    intro hcon
    exact hnm ((List.Sublist.map Prod.fst (List.filter_sublist kwargs)).subset hcon)
  · intro k v hk
    have hfil : ((k, v) :: kwargs).filter (fun kv => validKeys.contains kv.1)
        = kwargs.filter (fun kv => validKeys.contains kv.1) := by
      have hk' : k ∉ validKeys := by simpa using hk
      rw [List.filter_cons, if_neg (by simp [hk'])]
    unfold managerUpdate
    rw [hfil]

/-- Claim C9, witness: the theorem applied to an update carrying one known
key and one unknown key against the fresh state. -/
theorem C9_witness :
    getField (managerUpdate (initState "s")
        [("status", PyVal.str "passed"), ("alien", PyVal.int 3)]) "status"
      = some (PyVal.str "passed") ∧
    getField (managerUpdate (initState "s")
        [("status", PyVal.str "passed"), ("alien", PyVal.int 3)]) "code"
      = getField (initState "s") "code" ∧
    managerUpdate (initState "s")
        (("alien2", PyVal.int 7) :: [("status", PyVal.str "passed"), ("alien", PyVal.int 3)])
      = managerUpdate (initState "s") [("status", PyVal.str "passed"), ("alien", PyVal.int 3)] :=
  ⟨(C9_update (initState "s") _ (by decide) (by decide)).1 "status" _ (by decide) (by decide),
   (C9_update (initState "s") _ (by decide) (by decide)).2.1 "code" (by decide) (by decide),
   (C9_update (initState "s") _ (by decide) (by decide)).2.2 "alien2" (PyVal.int 7) (by decide)⟩

